import Mathlib

/-!
Verification of the financial rules engine of the return-to-work-cost
calculator.  Numbers are embedded as rationals: every arithmetic operation
performed by the source on the inputs considered here is exact, and the
spec reasons in real arithmetic.  Math.floor becomes Int.floor,
Math.round becomes round (both are floor(x + 1/2) for finite inputs),
and a JavaScript division whose divisor may be zero is embedded through
jsDiv, which returns none exactly when JS would produce a non-real
result (NaN or a signed infinity).

Sources embedded: src/src/utils/subsidyCalculations.ts,
src/src/utils/taxCalculations.ts, src/src/utils/graphData.ts, and the
unnamed modules holding calculateSecondParentScenario (advocacy
calculator) and the hours-graph module holding
calculateTotalCostsWithWorkDays and findBreakEvenHours.
-/

/-- Constants of subsidyCalculations.ts (2025-26 Child Care Subsidy). -/
def BASE_INCOME : ℚ := 85279

def BASE_SUBSIDY_PERCENT : ℚ := 90

def SECOND_CHILD_BASE_INCOME : ℚ := 143273

def SECOND_CHILD_SUBSIDY_PERCENT : ℚ := 95

def SECOND_CHILD_INCOME_STEP : ℚ := 3000

def SECOND_CHILD_FIRST_BRACKET_END : ℚ := 188273

def SECOND_CHILD_FLAT_80_END : ℚ := 267563

def SECOND_CHILD_SECOND_BRACKET_END : ℚ := 357563

def SECOND_CHILD_MIN_SUBSIDY_PERCENT : ℚ := 50

def INCOME_STEP : ℚ := 5000

def SUBSIDY_DECREASE_PER_STEP : ℚ := 1

def MAX_INCOME : ℚ := 535279

def HOURLY_RATE_CAP_UNDER_SCHOOL_AGE : ℚ := 14.63

def HOURLY_RATE_CAP_SCHOOL_AGE : ℚ := 12.81

def MIN_SUBSIDISED_HOURS : ℚ := 72

def MAX_SUBSIDISED_HOURS : ℚ := 100

def ACTIVITY_THRESHOLD_FOR_MAX_HOURS : ℚ := 48

/-- The age field of a Child record: under-school or school-age. -/
inductive AgeCategory where
  | underSchool : AgeCategory
  | schoolAge : AgeCategory
deriving DecidableEq

/-- The Child record of subsidyCalculations.ts. -/
structure Child where
  age : AgeCategory
  hoursPerDay : ℚ
  daysPerWeek : ℚ
  hourlyRate : ℚ
  isSecondOrLater : Bool
deriving DecidableEq

/-- calculateSubsidyPercent of subsidyCalculations.ts (lines 56-102):
the standard schedule (90% up to 85279, minus 1 point per 5000, 0 at
535279 and beyond) and the priority multi-bracket schedule (95% up to
143273, stepping to a floor of 80 until 188273, flat 80 until 267563,
stepping to a floor of 50 until 357563, then constant 50). -/
def calculateSubsidyPercent (income : ℚ) (isSecondOrLater : Bool) : ℚ :=
  if isSecondOrLater then
    if income ≤ SECOND_CHILD_BASE_INCOME then
      SECOND_CHILD_SUBSIDY_PERCENT
    else if income ≤ SECOND_CHILD_FIRST_BRACKET_END then
      let incomeOverBase := income - SECOND_CHILD_BASE_INCOME
      let steps : ℤ := ⌊incomeOverBase / SECOND_CHILD_INCOME_STEP⌋
      let subsidyPercent := SECOND_CHILD_SUBSIDY_PERCENT - (steps : ℚ) * SUBSIDY_DECREASE_PER_STEP
      max 80 subsidyPercent
    else if income ≤ SECOND_CHILD_FLAT_80_END then
      80
    else if income ≤ SECOND_CHILD_SECOND_BRACKET_END then
      let incomeOverBase := income - SECOND_CHILD_FLAT_80_END
      let steps : ℤ := ⌊incomeOverBase / SECOND_CHILD_INCOME_STEP⌋
      let subsidyPercent := 80 - (steps : ℚ) * SUBSIDY_DECREASE_PER_STEP
      max SECOND_CHILD_MIN_SUBSIDY_PERCENT subsidyPercent
    else
      SECOND_CHILD_MIN_SUBSIDY_PERCENT
  else
    if income ≤ BASE_INCOME then
      BASE_SUBSIDY_PERCENT
    else if MAX_INCOME ≤ income then
      0
    else
      let incomeOverBase := income - BASE_INCOME
      let steps : ℤ := ⌊incomeOverBase / INCOME_STEP⌋
      let subsidyPercent := BASE_SUBSIDY_PERCENT - (steps : ℚ) * SUBSIDY_DECREASE_PER_STEP
      max 0 subsidyPercent

/-- calculateSubsidisedHours of subsidyCalculations.ts: 100 hours per
fortnight at or above 48 activity hours, else the 72-hour minimum. -/
def calculateSubsidisedHours (activityHoursPerFortnight : ℚ) : ℚ :=
  if ACTIVITY_THRESHOLD_FOR_MAX_HOURS ≤ activityHoursPerFortnight then
    MAX_SUBSIDISED_HOURS
  else
    MIN_SUBSIDISED_HOURS

/-- The record returned by calculateChildSubsidy. -/
structure ChildSubsidyDetails where
  subsidyPercent : ℚ
  hourlyRateCap : ℚ
  subsidisedHoursPerFortnight : ℚ
  subsidyPerHour : ℚ
  hoursPerDay : ℚ
  daysPerWeek : ℚ
deriving DecidableEq

/-- calculateChildSubsidy of subsidyCalculations.ts (lines 113-143). -/
def calculateChildSubsidy (child : Child) (income : ℚ)
    (activityHoursPerFortnight : ℚ) : ChildSubsidyDetails :=
  let subsidyPercent := calculateSubsidyPercent income child.isSecondOrLater
  let hourlyRateCap :=
    match child.age with
    | AgeCategory.underSchool => HOURLY_RATE_CAP_UNDER_SCHOOL_AGE
    | AgeCategory.schoolAge => HOURLY_RATE_CAP_SCHOOL_AGE
  let subsidisedHoursPerFortnight := calculateSubsidisedHours activityHoursPerFortnight
  let rateForSubsidy := min child.hourlyRate hourlyRateCap
  let subsidyPerHour := rateForSubsidy * (subsidyPercent / 100)
  { subsidyPercent := subsidyPercent
    hourlyRateCap := hourlyRateCap
    subsidisedHoursPerFortnight := subsidisedHoursPerFortnight
    subsidyPerHour := subsidyPerHour
    hoursPerDay := child.hoursPerDay
    daysPerWeek := child.daysPerWeek }

/-- One element of the childDetails array built by calculateTotalCosts:
the spread of the calculateChildSubsidy record plus the per-child cost
figures. -/
structure ChildCostDetail extends ChildSubsidyDetails where
  subsidyAmount : ℚ
  totalCost : ℚ
  outOfPocket : ℚ
  subsidisedHours : ℚ
  unsubsidisedHours : ℚ
deriving DecidableEq

/-- The record returned by calculateTotalCosts (and by
calculateTotalCostsWithWorkDays). -/
structure TotalCosts where
  childDetails : List ChildCostDetail
  totalChildcareSubsidy : ℚ
  totalChildcareCost : ℚ
  totalChildcareOutOfPocket : ℚ
  childcarePerDay : ℚ
deriving DecidableEq

/-- The per-child body of the map in calculateTotalCosts, shared with
calculateTotalCostsWithWorkDays: the two sources differ only in which
ChildSubsidyDetails record they start from and which subsidised-hours
ceiling bounds the child's own hours. -/
def childCostRow (details : ChildSubsidyDetails) (ceiling : ℚ)
    (child : Child) : ChildCostDetail :=
  let hoursPerFortnight := child.hoursPerDay * child.daysPerWeek * 2
  let subsidisedHours := min hoursPerFortnight ceiling
  let unsubsidisedHours := max 0 (hoursPerFortnight - subsidisedHours)
  let subsidyAmount := subsidisedHours * details.subsidyPerHour
  let totalCost := hoursPerFortnight * child.hourlyRate
  let outOfPocket := totalCost - subsidyAmount
  { details with
    subsidyAmount := subsidyAmount
    totalCost := totalCost
    outOfPocket := outOfPocket
    subsidisedHours := subsidisedHours
    unsubsidisedHours := unsubsidisedHours }

/-- calculateTotalCosts of subsidyCalculations.ts (lines 145-190).  The
source accumulates the two totals inside the map callback; the embedding
sums the same per-child figures over the built list, which yields the
same values. -/
def calculateTotalCosts (children : List Child) (income : ℚ)
    (activityHoursPerFortnight : ℚ) : TotalCosts :=
  let childDetails := children.map (fun child =>
    let details := calculateChildSubsidy child income activityHoursPerFortnight
    childCostRow details details.subsidisedHoursPerFortnight child)
  let totalChildcareSubsidy := (childDetails.map (fun d => d.subsidyAmount)).sum
  let totalChildcareCost := (childDetails.map (fun d => d.totalCost)).sum
  let totalChildcareOutOfPocket := totalChildcareCost - totalChildcareSubsidy
  let totalDaysPerFortnight := (children.map (fun c => c.daysPerWeek * 2)).sum
  let childcarePerDay :=
    if 0 < totalDaysPerFortnight then totalChildcareOutOfPocket / totalDaysPerFortnight else 0
  { childDetails := childDetails
    totalChildcareSubsidy := totalChildcareSubsidy
    totalChildcareCost := totalChildcareCost
    totalChildcareOutOfPocket := totalChildcareOutOfPocket
    childcarePerDay := childcarePerDay }

/-- calculateTotalCostsWithWorkDays of the hours-graph module (lines
21-65): identical to calculateTotalCosts except that calculateChildSubsidy
is invoked with activity hours 0 and the caller-supplied
subsidisedHoursPerFortnight ceiling bounds the child's hours. -/
def calculateTotalCostsWithWorkDays (children : List Child) (income : ℚ)
    (subsidisedHoursPerFortnight : ℚ) : TotalCosts :=
  let childDetails := children.map (fun child =>
    let details := calculateChildSubsidy child income 0
    childCostRow details subsidisedHoursPerFortnight child)
  let totalChildcareSubsidy := (childDetails.map (fun d => d.subsidyAmount)).sum
  let totalChildcareCost := (childDetails.map (fun d => d.totalCost)).sum
  let totalChildcareOutOfPocket := totalChildcareCost - totalChildcareSubsidy
  let totalDaysPerFortnight := (children.map (fun c => c.daysPerWeek * 2)).sum
  let childcarePerDay :=
    if 0 < totalDaysPerFortnight then totalChildcareOutOfPocket / totalDaysPerFortnight else 0
  { childDetails := childDetails
    totalChildcareSubsidy := totalChildcareSubsidy
    totalChildcareCost := totalChildcareCost
    totalChildcareOutOfPocket := totalChildcareOutOfPocket
    childcarePerDay := childcarePerDay }

/-- calculateLowIncomeTaxOffset of taxCalculations.ts. -/
def calculateLowIncomeTaxOffset (income : ℚ) : ℚ :=
  if income ≤ 37000 then 700
  else if income ≤ 45000 then 700 - 0.05 * (income - 37000)
  else if income ≤ 66667 then 325 - 0.015 * (income - 45000)
  else 0

/-- calculateIncomeTax of taxCalculations.ts (lines 1-33): 2025-26
marginal brackets, low-income offset subtracted, floored at zero. -/
def calculateIncomeTax (income : ℚ) : ℚ :=
  if income ≤ 18200 then 0
  else
    let firstBracket := min (income - 18200) 26800
    let tax1 := firstBracket * 0.16
    let tax2 := tax1 + (if 45000 < income then (min (income - 45000) 90000) * 0.30 else 0)
    let tax3 := tax2 + (if 135000 < income then (min (income - 135000) 55000) * 0.37 else 0)
    let tax4 := tax3 + (if 190000 < income then (income - 190000) * 0.45 else 0)
    let lito := calculateLowIncomeTaxOffset income
    max 0 (tax4 - lito)

/-- calculateMedicareLevy of taxCalculations.ts: 2% levy with a linear
shade-in between 24276 and 30345, zero at or below the threshold. -/
def calculateMedicareLevy (income : ℚ) : ℚ :=
  let SINGLE_THRESHOLD : ℚ := 24276
  let SINGLE_SHADE_IN_END : ℚ := 30345
  if income ≤ SINGLE_THRESHOLD then 0
  else if income ≤ SINGLE_SHADE_IN_END then
    let excess := income - SINGLE_THRESHOLD
    let shadeInRange := SINGLE_SHADE_IN_END - SINGLE_THRESHOLD
    let levyPercent := (excess / shadeInRange) * 0.02
    income * levyPercent
  else
    income * 0.02

/-- calculateAfterTaxIncome of taxCalculations.ts (levy-inclusive). -/
def calculateAfterTaxIncome (income : ℚ) : ℚ :=
  income - calculateIncomeTax income - calculateMedicareLevy income

/-- A sample of the income sweep in graphData.ts. -/
structure GraphDataPoint where
  grossIncome : ℚ
  netIncome : ℚ
  afterTax : ℚ
  childcareCost : ℚ
deriving DecidableEq

/-- The record returned by findBreakEvenPoint. -/
structure BreakEvenPoint where
  income : ℚ
  netIncome : ℚ
deriving DecidableEq

/-- The body of the loop in calculateGraphData (graphData.ts lines
27-41), evaluated at one swept second-parent income. -/
def graphPointAt (firstParentIncome : ℚ) (children : List Child)
    (activityHoursPerFortnight : ℚ) (isSingleParent : Bool)
    (secondParentIncome : ℚ) : GraphDataPoint :=
  let incomeForSubsidy :=
    if isSingleParent then secondParentIncome
    else firstParentIncome + secondParentIncome
  let costs := calculateTotalCosts children incomeForSubsidy activityHoursPerFortnight
  let afterTax := calculateAfterTaxIncome secondParentIncome
  let childcareOutOfPocketAnnual := costs.totalChildcareOutOfPocket * 26
  let netIncome := afterTax - childcareOutOfPocketAnnual
  { grossIncome := secondParentIncome
    netIncome := netIncome
    afterTax := afterTax
    childcareCost := childcareOutOfPocketAnnual }

/-- The values taken by the loop variable of
for (x = cur; x <= maxIncome; x += step), driven by a fuel counter.
For 0 < step the fuel chosen in sweepValues is exactly the number of
iterations the JS loop performs, so the fuel never runs out before the
loop guard fails. -/
def sweepValuesAux (maxIncome step : ℚ) : ℕ → ℚ → List ℚ
  | 0, _ => []
  | fuel + 1, cur =>
    if cur ≤ maxIncome then cur :: sweepValuesAux maxIncome step fuel (cur + step)
    else []

/-- The list of incomes visited by the loop of calculateGraphData:
minIncome, minIncome + step, ... while the value stays at or below
maxIncome.  (For step ≤ 0 the JS loop would not terminate; that case is
outside the claims considered and the fuel bound then yields [].) -/
def sweepValues (minIncome maxIncome step : ℚ) : List ℚ :=
  sweepValuesAux maxIncome step (⌊(maxIncome - minIncome) / step⌋ + 1).toNat minIncome

/-- calculateGraphData of graphData.ts (lines 16-44): one GraphDataPoint
per visited income. -/
def calculateGraphData (firstParentIncome : ℚ) (children : List Child)
    (activityHoursPerFortnight : ℚ) (minIncome maxIncome step : ℚ)
    (isSingleParent : Bool) : List GraphDataPoint :=
  (sweepValues minIncome maxIncome step).map
    (graphPointAt firstParentIncome children activityHoursPerFortnight isSingleParent)

/-- findBreakEvenPoint of graphData.ts (lines 46-73): scan adjacent
pairs; on a crossing in either direction return the income interpolated
with proportional distance abs current over (abs current + abs next). -/
def findBreakEvenPoint : List GraphDataPoint → Option BreakEvenPoint
  | current :: next :: rest =>
    if 0 ≤ current.netIncome ∧ next.netIncome < 0 then
      let frac := |current.netIncome| / (|current.netIncome| + |next.netIncome|)
      some { income := current.grossIncome + (next.grossIncome - current.grossIncome) * frac
             netIncome := 0 }
    else if current.netIncome ≤ 0 ∧ 0 < next.netIncome then
      let frac := |current.netIncome| / (|current.netIncome| + |next.netIncome|)
      some { income := current.grossIncome + (next.grossIncome - current.grossIncome) * frac
             netIncome := 0 }
    else
      findBreakEvenPoint (next :: rest)
  | _ => none

/-- The interpolated point built by findPointForIncome when the target
lies strictly between two adjacent samples (graphData.ts lines 198-208). -/
def interpPoint (current next : GraphDataPoint) (targetIncome : ℚ) : GraphDataPoint :=
  let frac := (targetIncome - current.grossIncome) / (next.grossIncome - current.grossIncome)
  { grossIncome := targetIncome
    netIncome := current.netIncome + (next.netIncome - current.netIncome) * frac
    afterTax := current.afterTax + (next.afterTax - current.afterTax) * frac
    childcareCost := current.childcareCost + (next.childcareCost - current.childcareCost) * frac }

/-- findPointForIncome of graphData.ts (lines 180-213): loop over
adjacent pairs, exact sample on coincidence, interpolation strictly
inside a bracketing pair, none otherwise.  The loop body at index i sees
the list with the first i samples dropped, which the recursion mirrors;
lists of fewer than two samples run the loop zero times and return none. -/
def findPointForIncome : List GraphDataPoint → ℚ → Option GraphDataPoint
  | current :: next :: rest, targetIncome =>
    if current.grossIncome ≤ targetIncome ∧ targetIncome ≤ next.grossIncome then
      if current.grossIncome = targetIncome then some current
      else if next.grossIncome = targetIncome then some next
      else some (interpPoint current next targetIncome)
    else
      findPointForIncome (next :: rest) targetIncome
  | _, _ => none

/-- A sample of the hours sweep in the hours-graph module. -/
structure HoursGraphDataPoint where
  hoursPerWeek : ℚ
  daysPerWeek : ℚ
  netIncome : ℚ
  grossIncome : ℚ
  afterTax : ℚ
  childcareCost : ℚ
deriving DecidableEq

/-- calculateDaysPerWeekFromHours of the hours-graph module:
round(hours / 7.6 * 10) / 10.  JS Math.round and Mathlib round both
compute floor(x + 1/2) on finite inputs. -/
def calculateDaysPerWeekFromHours (hoursPerWeek : ℚ) : ℚ :=
  let hoursPerDay : ℚ := 7.6
  (round (hoursPerWeek / hoursPerDay * 10) : ℚ) / 10

/-- The interpolated hours value computed inside findBreakEvenHours at a
qualifying pair: current hours plus the span scaled by
abs(current net) / (abs(current net) + next net). -/
def breakEvenHoursInterp (current next : HoursGraphDataPoint) : ℚ :=
  let frac := |current.netIncome| / (|current.netIncome| + next.netIncome)
  current.hoursPerWeek + (next.hoursPerWeek - current.hoursPerWeek) * frac

/-- findBreakEvenHours of the hours-graph module (lines 138-170):
scans adjacent pairs only for netIncome ≤ 0 followed by netIncome > 0;
at the first such pair it interpolates, returns null at once when the
interpolated hours land below 0.5, and otherwise returns the
interpolated point. -/
def findBreakEvenHours : List HoursGraphDataPoint → Option HoursGraphDataPoint
  | current :: next :: rest =>
    if current.netIncome ≤ 0 ∧ 0 < next.netIncome then
      let frac := |current.netIncome| / (|current.netIncome| + next.netIncome)
      let breakEvenHours := current.hoursPerWeek + (next.hoursPerWeek - current.hoursPerWeek) * frac
      if breakEvenHours < 0.5 then none
      else
        some { hoursPerWeek := breakEvenHours
               daysPerWeek := calculateDaysPerWeekFromHours breakEvenHours
               netIncome := 0
               grossIncome := current.grossIncome + (next.grossIncome - current.grossIncome) * frac
               afterTax := current.afterTax + (next.afterTax - current.afterTax) * frac
               childcareCost := current.childcareCost + (next.childcareCost - current.childcareCost) * frac }
    else
      findBreakEvenHours (next :: rest)
  | _ => none

/-- JavaScript division with a possibly zero divisor: some quotient when
the divisor is nonzero, none when JS would produce NaN or a signed
infinity (zero divisor). -/
def jsDiv (a b : ℚ) : Option ℚ :=
  if b = 0 then none else some (a / b)

/-- The SecondParentScenario record of the advocacy-calculator module. -/
structure SecondParentScenario where
  secondParentIncome : ℚ
  firstParentIncome : ℚ
  children : List Child
  activityHoursPerFortnight : ℚ
  secondParentHoursPerFortnight : Option ℚ
deriving DecidableEq

/-- One element of the childDetails array of a FinancialBreakdown. -/
structure ChildDetailBreakdown where
  subsidyPercent : ℚ
  subsidyAmount : ℚ
  totalCost : ℚ
  outOfPocket : ℚ
  isSecondOrLater : Bool
  subsidisedHours : ℚ
  unsubsidisedHours : ℚ
  hoursPerDay : ℚ
  daysPerWeek : ℚ
deriving DecidableEq

/-- The childcareCosts record of a FinancialBreakdown. -/
structure ChildcareCostsBreakdown where
  totalAnnual : ℚ
  totalSubsidy : ℚ
  outOfPocketAnnual : ℚ
  outOfPocketPerDay : ℚ
  childDetails : List ChildDetailBreakdown
deriving DecidableEq

/-- The FinancialBreakdown record of the advocacy-calculator module.
percentageOfIncomeLost is an Option because the source computes it by an
unguarded division by the second parent's gross income: none models the
non-real JS result at a zero divisor. -/
structure FinancialBreakdown where
  secondParentGrossIncome : ℚ
  secondParentAfterTax : ℚ
  childcareCosts : ChildcareCostsBreakdown
  netIncomeAfterChildcare : ℚ
  effectiveHourlyRate : ℚ
  percentageOfIncomeLost : Option ℚ
deriving DecidableEq

/-- calculateSecondParentScenario of the advocacy-calculator module
(lines 40-93).  The ?? fallback on secondParentHoursPerFortnight becomes
Option.getD; the guarded ternary for effectiveHourlyRate becomes a
conditional; the unguarded division for percentageOfIncomeLost becomes
jsDiv. -/
def calculateSecondParentScenario (scenario : SecondParentScenario) : FinancialBreakdown :=
  let combinedIncome := scenario.firstParentIncome + scenario.secondParentIncome
  let costs := calculateTotalCosts scenario.children combinedIncome
    scenario.activityHoursPerFortnight
  let secondParentAfterTax := calculateAfterTaxIncome scenario.secondParentIncome
  let childcareOutOfPocketAnnual := costs.totalChildcareOutOfPocket * 26
  let netIncomeAfterChildcare := secondParentAfterTax - childcareOutOfPocketAnnual
  let hoursPerFortnightForRate :=
    scenario.secondParentHoursPerFortnight.getD scenario.activityHoursPerFortnight
  let annualWorkingHours := hoursPerFortnightForRate * 26
  let effectiveHourlyRate :=
    if 0 < annualWorkingHours then netIncomeAfterChildcare / annualWorkingHours else 0
  let percentageOfIncomeLost :=
    (jsDiv (scenario.secondParentIncome - netIncomeAfterChildcare)
      scenario.secondParentIncome).map (fun x => x * 100)
  { secondParentGrossIncome := scenario.secondParentIncome
    secondParentAfterTax := secondParentAfterTax
    childcareCosts :=
      { totalAnnual := costs.totalChildcareCost * 26
        totalSubsidy := costs.totalChildcareSubsidy * 26
        outOfPocketAnnual := childcareOutOfPocketAnnual
        outOfPocketPerDay := costs.childcarePerDay
        childDetails := costs.childDetails.enum.map (fun pair =>
          { subsidyPercent := pair.2.subsidyPercent
            subsidyAmount := pair.2.subsidyAmount * 26
            totalCost := pair.2.totalCost * 26
            outOfPocket := pair.2.outOfPocket * 26
            isSecondOrLater :=
              ((scenario.children[pair.1]?).map Child.isSecondOrLater).getD false
            subsidisedHours := pair.2.subsidisedHours
            unsubsidisedHours := pair.2.unsubsidisedHours
            hoursPerDay := pair.2.hoursPerDay
            daysPerWeek := pair.2.daysPerWeek }) }
    netIncomeAfterChildcare := netIncomeAfterChildcare
    effectiveHourlyRate := effectiveHourlyRate
    percentageOfIncomeLost := percentageOfIncomeLost }

/-- C1: on every declining segment, strictly above the segment start and
within the segment, calculateSubsidyPercent is the floor-division step
formula clamped at the segment floor; and the three quoted examples,
showing the 1-point steps with each boundary income on the lower step. -/
theorem calculateSubsidyPercent_segments :
    (∀ income : ℚ, BASE_INCOME < income → income < MAX_INCOME →
      calculateSubsidyPercent income false =
        max 0 (BASE_SUBSIDY_PERCENT -
          (⌊(income - BASE_INCOME) / INCOME_STEP⌋ : ℚ) * SUBSIDY_DECREASE_PER_STEP)) ∧
    (∀ income : ℚ, SECOND_CHILD_BASE_INCOME < income →
      income ≤ SECOND_CHILD_FIRST_BRACKET_END →
      calculateSubsidyPercent income true =
        max 80 (SECOND_CHILD_SUBSIDY_PERCENT -
          (⌊(income - SECOND_CHILD_BASE_INCOME) / SECOND_CHILD_INCOME_STEP⌋ : ℚ) *
            SUBSIDY_DECREASE_PER_STEP)) ∧
    (∀ income : ℚ, SECOND_CHILD_FLAT_80_END < income →
      income ≤ SECOND_CHILD_SECOND_BRACKET_END →
      calculateSubsidyPercent income true =
        max SECOND_CHILD_MIN_SUBSIDY_PERCENT (80 -
          (⌊(income - SECOND_CHILD_FLAT_80_END) / SECOND_CHILD_INCOME_STEP⌋ : ℚ) *
            SUBSIDY_DECREASE_PER_STEP)) ∧
    calculateSubsidyPercent (85279 + 5000) false = 89 ∧
    calculateSubsidyPercent (85279 + 10000) false = 88 ∧
    calculateSubsidyPercent 150000 true = 93 := by
  refine ⟨?_, ?_, ?_, ?_, ?_, ?_⟩
  · intro income h1 h2
    simp only [calculateSubsidyPercent, BASE_INCOME, MAX_INCOME, INCOME_STEP,
      BASE_SUBSIDY_PERCENT, SUBSIDY_DECREASE_PER_STEP] at *
    rw [if_neg (by norm_num), if_neg (by linarith), if_neg (by linarith)]
  · intro income h1 h2
    simp only [calculateSubsidyPercent, SECOND_CHILD_BASE_INCOME,
      SECOND_CHILD_FIRST_BRACKET_END, SECOND_CHILD_SUBSIDY_PERCENT,
      SECOND_CHILD_INCOME_STEP, SUBSIDY_DECREASE_PER_STEP] at *
    rw [if_pos trivial, if_neg (by linarith), if_pos h2]
  · intro income h1 h2
    simp only [calculateSubsidyPercent, SECOND_CHILD_BASE_INCOME,
      SECOND_CHILD_FIRST_BRACKET_END, SECOND_CHILD_FLAT_80_END,
      SECOND_CHILD_SECOND_BRACKET_END, SECOND_CHILD_MIN_SUBSIDY_PERCENT,
      SECOND_CHILD_INCOME_STEP, SUBSIDY_DECREASE_PER_STEP] at *
    rw [if_pos trivial, if_neg (by linarith), if_neg (by linarith), if_neg (by linarith),
      if_pos h2]
  · norm_num [calculateSubsidyPercent, BASE_INCOME, MAX_INCOME, INCOME_STEP,
      BASE_SUBSIDY_PERCENT, SUBSIDY_DECREASE_PER_STEP]
  · norm_num [calculateSubsidyPercent, BASE_INCOME, MAX_INCOME, INCOME_STEP,
      BASE_SUBSIDY_PERCENT, SUBSIDY_DECREASE_PER_STEP]
  · norm_num [calculateSubsidyPercent, SECOND_CHILD_BASE_INCOME,
      SECOND_CHILD_FIRST_BRACKET_END, SECOND_CHILD_SUBSIDY_PERCENT,
      SECOND_CHILD_INCOME_STEP, SUBSIDY_DECREASE_PER_STEP]

/-- Witness for calculateSubsidyPercent_segments at income 85279 + 5000
on the standard declining segment. -/
theorem calculateSubsidyPercent_segments_witness :
    calculateSubsidyPercent (85279 + 5000) false =
      max 0 (BASE_SUBSIDY_PERCENT -
        (⌊((85279 + 5000 : ℚ) - BASE_INCOME) / INCOME_STEP⌋ : ℚ) *
          SUBSIDY_DECREASE_PER_STEP) :=
  calculateSubsidyPercent_segments.1 (85279 + 5000)
    (by norm_num [BASE_INCOME]) (by norm_num [MAX_INCOME])

/-- C2: at and beyond 357563 the priority schedule stays at exactly 50,
never 0, for arbitrarily large income; at and beyond 535279 the standard
schedule is exactly 0. -/
theorem calculateSubsidyPercent_floors :
    (∀ income : ℚ, SECOND_CHILD_SECOND_BRACKET_END ≤ income →
      calculateSubsidyPercent income true = 50) ∧
    (∀ income : ℚ, MAX_INCOME ≤ income → calculateSubsidyPercent income false = 0) := by
  constructor
  · intro income h
    simp only [SECOND_CHILD_SECOND_BRACKET_END] at h
    rcases eq_or_lt_of_le h with heq | hlt
    · rw [← heq]
      norm_num [calculateSubsidyPercent, SECOND_CHILD_BASE_INCOME,
        SECOND_CHILD_FIRST_BRACKET_END, SECOND_CHILD_FLAT_80_END,
        SECOND_CHILD_SECOND_BRACKET_END, SECOND_CHILD_MIN_SUBSIDY_PERCENT,
        SECOND_CHILD_INCOME_STEP, SUBSIDY_DECREASE_PER_STEP]
    · simp only [calculateSubsidyPercent, SECOND_CHILD_BASE_INCOME,
        SECOND_CHILD_FIRST_BRACKET_END, SECOND_CHILD_FLAT_80_END,
        SECOND_CHILD_SECOND_BRACKET_END, SECOND_CHILD_MIN_SUBSIDY_PERCENT]
      rw [if_pos trivial, if_neg (by linarith), if_neg (by linarith), if_neg (by linarith),
        if_neg (by linarith)]
  · intro income h
    simp only [MAX_INCOME] at h
    simp only [calculateSubsidyPercent, BASE_INCOME, MAX_INCOME]
    rw [if_neg (by norm_num), if_neg (by linarith), if_pos (by linarith)]

/-- Witness for calculateSubsidyPercent_floors at incomes 400000
(priority) and 600000 (standard). -/
theorem calculateSubsidyPercent_floors_witness :
    calculateSubsidyPercent 400000 true = 50 ∧ calculateSubsidyPercent 600000 false = 0 :=
  ⟨calculateSubsidyPercent_floors.1 400000 (by norm_num [SECOND_CHILD_SECOND_BRACKET_END]),
   calculateSubsidyPercent_floors.2 600000 (by norm_num [MAX_INCOME])⟩

/-- C8: at or below the 18200 tax-free threshold the income tax is
exactly 0 and the levy-inclusive after-tax income is the income itself
(the Medicare levy threshold 24276 lies above 18200). -/
theorem taxFreeThreshold_exact :
    ∀ income : ℚ, 0 ≤ income → income ≤ 18200 →
      calculateIncomeTax income = 0 ∧ calculateAfterTaxIncome income = income := by
  intro income h0 h
  have htax : calculateIncomeTax income = 0 := by
    simp only [calculateIncomeTax]
    rw [if_pos h]
  have hlevy : calculateMedicareLevy income = 0 := by
    simp only [calculateMedicareLevy]
    rw [if_pos (by linarith)]
  refine ⟨htax, ?_⟩
  simp only [calculateAfterTaxIncome, htax, hlevy]
  ring

/-- Witness for taxFreeThreshold_exact at income 10000. -/
theorem taxFreeThreshold_exact_witness :
    calculateIncomeTax 10000 = 0 ∧ calculateAfterTaxIncome 10000 = 10000 :=
  taxFreeThreshold_exact 10000 (by norm_num) (by norm_num)

/-- C5: on the quoted four samples findBreakEvenPoint returns an income
strictly between 60000 and 70000 at interpolated net income 0, and on
any all-positive or all-negative sample sequence it returns none. -/
theorem findBreakEvenPoint_spec :
    (∃ pt, findBreakEvenPoint
        [⟨50000, -10000, 0, 0⟩, ⟨60000, -5000, 0, 0⟩, ⟨70000, 5000, 0, 0⟩,
          ⟨80000, 15000, 0, 0⟩] = some pt ∧
      60000 < pt.income ∧ pt.income < 70000 ∧ pt.netIncome = 0) ∧
    (∀ dataPoints : List GraphDataPoint,
      (∀ p ∈ dataPoints, 0 < p.netIncome) → findBreakEvenPoint dataPoints = none) ∧
    (∀ dataPoints : List GraphDataPoint,
      (∀ p ∈ dataPoints, p.netIncome < 0) → findBreakEvenPoint dataPoints = none) := by
  refine ⟨⟨⟨65000, 0⟩, ?_, by norm_num, by norm_num, rfl⟩, ?_, ?_⟩
  · norm_num [findBreakEvenPoint]
  · intro dataPoints h
    induction dataPoints with
    | nil => rfl
    | cons a t ih =>
      cases t with
      | nil => rfl
      | cons b t2 =>
        have ha : 0 < a.netIncome := h a (by simp)
        have hb : 0 < b.netIncome := h b (by simp)
        simp only [findBreakEvenPoint]
        rw [if_neg (by push_neg; intro _; linarith), if_neg (by push_neg; intro h1; linarith)]
        exact ih (fun p hp => h p (List.mem_cons_of_mem _ hp))
  · intro dataPoints h
    induction dataPoints with
    | nil => rfl
    | cons a t ih =>
      cases t with
      | nil => rfl
      | cons b t2 =>
        have ha : a.netIncome < 0 := h a (by simp)
        have hb : b.netIncome < 0 := h b (by simp)
        simp only [findBreakEvenPoint]
        rw [if_neg (by push_neg; intro h1; linarith), if_neg (by push_neg; intro _; linarith)]
        exact ih (fun p hp => h p (List.mem_cons_of_mem _ hp))

/-- Witness for findBreakEvenPoint_spec: the all-positive clause applied
to a concrete two-sample sequence. -/
theorem findBreakEvenPoint_spec_witness :
    findBreakEvenPoint [⟨0, 1, 0, 0⟩, ⟨10, 2, 0, 0⟩] = none :=
  findBreakEvenPoint_spec.2.1 [⟨0, 1, 0, 0⟩, ⟨10, 2, 0, 0⟩] (by
    intro p hp
    rcases List.mem_cons.mp hp with rfl | hp2
    · norm_num
    · rcases List.mem_cons.mp hp2 with rfl | hp3
      · norm_num
      · cases hp3)

/-- The five cost fields of the per-child row agree between the two
aggregation variants when the work-days variant is handed the ceiling
the activity-hours lookup would produce: the subsidy percent and
per-hour subsidy do not depend on the activity-hours argument. -/
theorem childCostRow_variants (child : Child) (income activityHours : ℚ) :
    ((childCostRow (calculateChildSubsidy child income 0)
        (calculateSubsidisedHours activityHours) child).subsidyAmount =
      (childCostRow (calculateChildSubsidy child income activityHours)
        (calculateChildSubsidy child income activityHours).subsidisedHoursPerFortnight
        child).subsidyAmount) ∧
    ((childCostRow (calculateChildSubsidy child income 0)
        (calculateSubsidisedHours activityHours) child).totalCost =
      (childCostRow (calculateChildSubsidy child income activityHours)
        (calculateChildSubsidy child income activityHours).subsidisedHoursPerFortnight
        child).totalCost) ∧
    ((childCostRow (calculateChildSubsidy child income 0)
        (calculateSubsidisedHours activityHours) child).outOfPocket =
      (childCostRow (calculateChildSubsidy child income activityHours)
        (calculateChildSubsidy child income activityHours).subsidisedHoursPerFortnight
        child).outOfPocket) ∧
    ((childCostRow (calculateChildSubsidy child income 0)
        (calculateSubsidisedHours activityHours) child).subsidisedHours =
      (childCostRow (calculateChildSubsidy child income activityHours)
        (calculateChildSubsidy child income activityHours).subsidisedHoursPerFortnight
        child).subsidisedHours) ∧
    ((childCostRow (calculateChildSubsidy child income 0)
        (calculateSubsidisedHours activityHours) child).unsubsidisedHours =
      (childCostRow (calculateChildSubsidy child income activityHours)
        (calculateChildSubsidy child income activityHours).subsidisedHoursPerFortnight
        child).unsubsidisedHours) :=
  ⟨rfl, rfl, rfl, rfl, rfl⟩

/-- C6: handing calculateTotalCostsWithWorkDays the ceiling that
calculateSubsidisedHours derives from the activity hours reproduces
calculateTotalCosts: all four aggregate figures agree, and the per-child
subsidyAmount, totalCost, outOfPocket, subsidisedHours and
unsubsidisedHours agree pairwise. -/
theorem totalCosts_variants_agree :
    ∀ (children : List Child) (income activityHours : ℚ),
      (calculateTotalCostsWithWorkDays children income
          (calculateSubsidisedHours activityHours)).totalChildcareSubsidy =
        (calculateTotalCosts children income activityHours).totalChildcareSubsidy ∧
      (calculateTotalCostsWithWorkDays children income
          (calculateSubsidisedHours activityHours)).totalChildcareCost =
        (calculateTotalCosts children income activityHours).totalChildcareCost ∧
      (calculateTotalCostsWithWorkDays children income
          (calculateSubsidisedHours activityHours)).totalChildcareOutOfPocket =
        (calculateTotalCosts children income activityHours).totalChildcareOutOfPocket ∧
      (calculateTotalCostsWithWorkDays children income
          (calculateSubsidisedHours activityHours)).childcarePerDay =
        (calculateTotalCosts children income activityHours).childcarePerDay ∧
      List.Forall₂ (fun d e =>
          d.subsidyAmount = e.subsidyAmount ∧ d.totalCost = e.totalCost ∧
          d.outOfPocket = e.outOfPocket ∧ d.subsidisedHours = e.subsidisedHours ∧
          d.unsubsidisedHours = e.unsubsidisedHours)
        (calculateTotalCostsWithWorkDays children income
          (calculateSubsidisedHours activityHours)).childDetails
        (calculateTotalCosts children income activityHours).childDetails := by
  intro children income activityHours
  have hsub : ((children.map (fun child =>
      childCostRow (calculateChildSubsidy child income 0)
        (calculateSubsidisedHours activityHours) child)).map
          (fun d => d.subsidyAmount)).sum =
      ((children.map (fun child =>
        childCostRow (calculateChildSubsidy child income activityHours)
          (calculateChildSubsidy child income activityHours).subsidisedHoursPerFortnight
          child)).map (fun d => d.subsidyAmount)).sum := by
    induction children with
    | nil => rfl
    | cons c t ih =>
      simp only [List.map_cons, List.sum_cons, ih,
        (childCostRow_variants c income activityHours).1]
  have hcost : ((children.map (fun child =>
      childCostRow (calculateChildSubsidy child income 0)
        (calculateSubsidisedHours activityHours) child)).map
          (fun d => d.totalCost)).sum =
      ((children.map (fun child =>
        childCostRow (calculateChildSubsidy child income activityHours)
          (calculateChildSubsidy child income activityHours).subsidisedHoursPerFortnight
          child)).map (fun d => d.totalCost)).sum := by
    clear hsub
    induction children with
    | nil => rfl
    | cons c t ih =>
      simp only [List.map_cons, List.sum_cons, ih,
        (childCostRow_variants c income activityHours).2.1]
  refine ⟨hsub, hcost, ?_, ?_, ?_⟩
  · simp only [calculateTotalCosts, calculateTotalCostsWithWorkDays, hsub, hcost]
  · simp only [calculateTotalCosts, calculateTotalCostsWithWorkDays, hsub, hcost]
  · simp only [calculateTotalCosts, calculateTotalCostsWithWorkDays]
    clear hsub hcost
    induction children with
    | nil => simp
    | cons c t ih =>
      simp only [List.map_cons]
      exact List.Forall₂.cons (childCostRow_variants c income activityHours) ih

/-- C10: every childDetail reported by calculateTotalCostsWithWorkDays
carries subsidisedHoursPerFortnight = 72 (calculateChildSubsidy is
invoked with activity hours 0) regardless of the supplied ceiling, while
the subsidisedHours actually used follow the supplied ceiling, so the
two fields can disagree (a 100-hour child with ceiling 100 reports 72
but uses 100 subsidised hours). -/
theorem withWorkDays_reportedCeiling :
    (∀ (children : List Child) (income ceiling : ℚ),
      ∀ d ∈ (calculateTotalCostsWithWorkDays children income ceiling).childDetails,
        d.subsidisedHoursPerFortnight = MIN_SUBSIDISED_HOURS) ∧
    (∃ d ∈ (calculateTotalCostsWithWorkDays
        [⟨AgeCategory.underSchool, 10, 5, 10, false⟩] 0 100).childDetails,
      d.subsidisedHours ≠ d.subsidisedHoursPerFortnight) := by
  constructor
  · intro children income ceiling d hd
    simp only [calculateTotalCostsWithWorkDays, List.mem_map] at hd
    obtain ⟨child, _, rfl⟩ := hd
    show calculateSubsidisedHours 0 = MIN_SUBSIDISED_HOURS
    norm_num [calculateSubsidisedHours, ACTIVITY_THRESHOLD_FOR_MAX_HOURS]
  · refine ⟨childCostRow (calculateChildSubsidy
        ⟨AgeCategory.underSchool, 10, 5, 10, false⟩ 0 0) 100
        ⟨AgeCategory.underSchool, 10, 5, 10, false⟩, ?_, ?_⟩
    · simp [calculateTotalCostsWithWorkDays]
    · show min ((10:ℚ) * 5 * 2) 100 ≠ calculateSubsidisedHours 0
      norm_num [calculateSubsidisedHours, ACTIVITY_THRESHOLD_FOR_MAX_HOURS,
        MIN_SUBSIDISED_HOURS]

/-- Witness for withWorkDays_reportedCeiling: the universal clause
applied to a concrete one-child family with ceiling 100. -/
theorem withWorkDays_reportedCeiling_witness :
    (childCostRow (calculateChildSubsidy
        ⟨AgeCategory.underSchool, 10, 5, 10, false⟩ 0 0) 100
        ⟨AgeCategory.underSchool, 10, 5, 10, false⟩).subsidisedHoursPerFortnight =
      MIN_SUBSIDISED_HOURS := by
  apply withWorkDays_reportedCeiling.1 [⟨AgeCategory.underSchool, 10, 5, 10, false⟩] 0 100
  simp [calculateTotalCostsWithWorkDays]

/-- C3 counterexample: at a scenario whose second parent has zero gross
income, percentageOfIncomeLost is none — the division by the gross
income is unguarded and JS produces NaN, not a real number from an
explicit branch. -/
theorem percentageOfIncomeLost_unguarded :
    (calculateSecondParentScenario
      { secondParentIncome := 0, firstParentIncome := 0, children := [],
        activityHoursPerFortnight := 0,
        secondParentHoursPerFortnight := none }).percentageOfIncomeLost = none := by
  simp [calculateSecondParentScenario, jsDiv]

/-- C3 as amended: the hours-for-rate figure of zero does make
effectiveHourlyRate 0 through the guarded conditional, but
percentageOfIncomeLost has no such guard: a zero second-parent gross
income yields a non-real value (none). -/
theorem scenario_division_guards :
    (∀ scenario : SecondParentScenario,
      scenario.secondParentHoursPerFortnight.getD scenario.activityHoursPerFortnight = 0 →
      (calculateSecondParentScenario scenario).effectiveHourlyRate = 0) ∧
    (∀ scenario : SecondParentScenario,
      scenario.secondParentIncome = 0 →
      (calculateSecondParentScenario scenario).percentageOfIncomeLost = none) := by
  constructor
  · intro scenario h
    simp only [calculateSecondParentScenario, h]
    norm_num
  · intro scenario h
    simp only [calculateSecondParentScenario, h, jsDiv]
    norm_num

/-- Witness for scenario_division_guards at the zero scenario. -/
theorem scenario_division_guards_witness :
    (calculateSecondParentScenario
      { secondParentIncome := 0, firstParentIncome := 0, children := [],
        activityHoursPerFortnight := 0,
        secondParentHoursPerFortnight := none }).effectiveHourlyRate = 0 ∧
    (calculateSecondParentScenario
      { secondParentIncome := 0, firstParentIncome := 0, children := [],
        activityHoursPerFortnight := 0,
        secondParentHoursPerFortnight := none }).percentageOfIncomeLost = none :=
  ⟨scenario_division_guards.1 _ rfl, scenario_division_guards.2 _ rfl⟩

/-- With positive step, sweepValuesAux visits cur + k * step whenever
that value is at or below maxIncome and the fuel covers k iterations. -/
theorem sweepValuesAux_mem (maxIncome step : ℚ) (hstep : 0 < step) :
    ∀ (k fuel : ℕ) (cur : ℚ), k < fuel → cur + k * step ≤ maxIncome →
      cur + k * step ∈ sweepValuesAux maxIncome step fuel cur := by
  intro k
  induction k with
  | zero =>
    intro fuel cur hk hle
    obtain ⟨f, rfl⟩ : ∃ f, fuel = f + 1 := ⟨fuel - 1, by omega⟩
    simp only [sweepValuesAux]
    rw [if_pos (by simpa using hle)]
    simp
  | succ k ih =>
    intro fuel cur hk hle
    obtain ⟨f, rfl⟩ : ∃ f, fuel = f + 1 := ⟨fuel - 1, by omega⟩
    have hstepk : (0:ℚ) ≤ ((k : ℚ) + 1) * step := by positivity
    have hcur : cur ≤ maxIncome := by
      have : cur + ((k : ℚ) + 1) * step ≤ maxIncome := by push_cast at hle ⊢; linarith
      linarith
    have hshift : cur + ((k : ℕ) + 1 : ℕ) * step = (cur + step) + (k : ℕ) * step := by
      push_cast
      ring
    simp only [sweepValuesAux]
    rw [if_pos hcur, hshift]
    refine List.mem_cons_of_mem _ (ih f (cur + step) (by omega) ?_)
    rw [← hshift]
    exact hle

/-- With positive step, the income sweep visits minIncome + k * step for
every k with minIncome + k * step ≤ maxIncome: the chosen fuel equals
the number of iterations of the source loop. -/
theorem sweepValues_mem (minIncome maxIncome step : ℚ) (hstep : 0 < step) (k : ℕ)
    (hle : minIncome + k * step ≤ maxIncome) :
    minIncome + k * step ∈ sweepValues minIncome maxIncome step := by
  apply sweepValuesAux_mem maxIncome step hstep
  · have h1 : (k : ℚ) ≤ (maxIncome - minIncome) / step := by
      rw [le_div_iff₀ hstep]
      linarith
    have h2 : (k : ℤ) ≤ ⌊(maxIncome - minIncome) / step⌋ := by
      rw [Int.le_floor]
      exact_mod_cast h1
    exact Int.lt_toNat.mpr (by omega)
  · exact hle

/-- C4 as amended: with positive step and minIncome ≤ maxIncome the
sweep always contains a sample at minIncome, and contains a sample at
maxIncome whenever maxIncome − minIncome is a whole multiple of step;
when it is not, the loop can stop short of maxIncome. -/
theorem calculateGraphData_endpoints :
    ∀ (firstParentIncome : ℚ) (children : List Child)
      (activityHoursPerFortnight minIncome maxIncome step : ℚ) (isSingleParent : Bool),
      0 < step → minIncome ≤ maxIncome →
      (∃ p ∈ calculateGraphData firstParentIncome children activityHoursPerFortnight
          minIncome maxIncome step isSingleParent, p.grossIncome = minIncome) ∧
      (∀ k : ℕ, maxIncome = minIncome + k * step →
        ∃ p ∈ calculateGraphData firstParentIncome children activityHoursPerFortnight
            minIncome maxIncome step isSingleParent, p.grossIncome = maxIncome) := by
  intro firstParentIncome children activityHoursPerFortnight minIncome maxIncome step
    isSingleParent hstep hle
  constructor
  · refine ⟨graphPointAt firstParentIncome children activityHoursPerFortnight
      isSingleParent minIncome, List.mem_map_of_mem _ ?_, rfl⟩
    have h0 := sweepValues_mem minIncome maxIncome step hstep 0 (by simpa using hle)
    simpa using h0
  · intro k hk
    refine ⟨graphPointAt firstParentIncome children activityHoursPerFortnight
      isSingleParent maxIncome, List.mem_map_of_mem _ ?_, rfl⟩
    have hmem := sweepValues_mem minIncome maxIncome step hstep k (le_of_eq hk.symm)
    rwa [← hk] at hmem

/-- C4 counterexample: sweeping 0..7 in steps of 5 (positive step,
min ≤ max, but 7 not a multiple of 5) produces no sample whose
grossIncome is the supplied maxIncome 7. -/
theorem calculateGraphData_endpoint_counterexample :
    (0:ℚ) < 5 ∧ (0:ℚ) ≤ 7 ∧
      ¬ ∃ p ∈ calculateGraphData 0 [] 0 0 7 5 false, p.grossIncome = 7 := by
  refine ⟨by norm_num, by norm_num, ?_⟩
  have hs : sweepValues 0 7 5 = [0, 5] := by
    norm_num [sweepValues, sweepValuesAux]
  simp only [calculateGraphData, hs, List.map_cons, List.map_nil]
  intro hex
  rcases hex with ⟨p, hp, hg⟩
  rcases List.mem_cons.mp hp with rfl | hp2
  · revert hg
    show ¬ (0:ℚ) = 7
    norm_num
  · rcases List.mem_cons.mp hp2 with rfl | hp3
    · revert hg
      show ¬ (5:ℚ) = 7
      norm_num
    · cases hp3

/-- Witness for calculateGraphData_endpoints: a sweep 0..10 by 5 whose
span is the multiple 2 of the step contains a sample at 10. -/
theorem calculateGraphData_endpoints_witness :
    ∃ p ∈ calculateGraphData 0 [] 0 0 10 5 false, p.grossIncome = 10 :=
  (calculateGraphData_endpoints 0 [] 0 0 10 5 false (by norm_num) (by norm_num)).2
    2 (by norm_num)

/-- C9: findBreakEvenHours skips pairs that are not a
non-positive-to-positive transition; at the first qualifying pair it
returns none whenever the interpolated crossing lies below 0.5 hours,
whatever samples follow; and a sequence with no qualifying pair yields
none, so a positive-to-negative crossing is never detected. -/
theorem findBreakEvenHours_suppression :
    (∀ (current next : HoursGraphDataPoint) (rest : List HoursGraphDataPoint),
      current.netIncome ≤ 0 → 0 < next.netIncome →
      breakEvenHoursInterp current next < 0.5 →
      findBreakEvenHours (current :: next :: rest) = none) ∧
    (∀ (current next : HoursGraphDataPoint) (rest : List HoursGraphDataPoint),
      ¬(current.netIncome ≤ 0 ∧ 0 < next.netIncome) →
      findBreakEvenHours (current :: next :: rest) = findBreakEvenHours (next :: rest)) ∧
    (∀ dataPoints : List HoursGraphDataPoint,
      (∀ (l1 : List HoursGraphDataPoint) (c n : HoursGraphDataPoint)
          (l2 : List HoursGraphDataPoint),
        dataPoints = l1 ++ c :: n :: l2 → ¬(c.netIncome ≤ 0 ∧ 0 < n.netIncome)) →
      findBreakEvenHours dataPoints = none) := by
  refine ⟨?_, ?_, ?_⟩
  · intro current next rest h1 h2 h3
    simp only [breakEvenHoursInterp] at h3
    simp only [findBreakEvenHours]
    rw [if_pos ⟨h1, h2⟩, if_pos h3]
  · intro current next rest h
    simp only [findBreakEvenHours]
    rw [if_neg h]
  · intro dataPoints
    induction dataPoints with
    | nil => intro _; rfl
    | cons a t ih =>
      cases t with
      | nil => intro _; rfl
      | cons b t2 =>
        intro h
        simp only [findBreakEvenHours]
        rw [if_neg (h [] a b t2 rfl)]
        exact ih (fun l1 c n l2 heq => h (a :: l1) c n l2 (by rw [heq]; rfl))

/-- Witness for findBreakEvenHours_suppression: a concrete sequence
whose first qualifying pair interpolates to 1/20 hours (below 0.5) is
suppressed to none even though the later pair (-5, 5) is a genuine sign
change that would interpolate to 1.5 hours. -/
theorem findBreakEvenHours_suppression_witness :
    findBreakEvenHours
      [⟨0, 0, -1, 0, 0, 0⟩, ⟨1/2, 0, 9, 0, 0, 0⟩, ⟨1, 0, -5, 0, 0, 0⟩,
        ⟨2, 0, 5, 0, 0, 0⟩] = none :=
  findBreakEvenHours_suppression.1 ⟨0, 0, -1, 0, 0, 0⟩ ⟨1/2, 0, 9, 0, 0, 0⟩
    [⟨1, 0, -5, 0, 0, 0⟩, ⟨2, 0, 5, 0, 0, 0⟩]
    (by norm_num) (by norm_num) (by norm_num [breakEvenHoursInterp])

/-- On a strictly ascending sequence of at least two samples,
findPointForIncome returns the sample itself whenever the target equals
that sample's grossIncome. -/
theorem findPointForIncome_exact :
    ∀ (rest : List GraphDataPoint) (a b : GraphDataPoint) (t : ℚ),
      List.Pairwise (fun p q => p.grossIncome < q.grossIncome) (a :: b :: rest) →
      ∀ p ∈ a :: b :: rest, p.grossIncome = t →
        findPointForIncome (a :: b :: rest) t = some p := by
  intro rest
  induction rest with
  | nil =>
    intro a b t hpw p hp ht
    have hab : a.grossIncome < b.grossIncome :=
      (List.pairwise_cons.mp hpw).1 b (by simp)
    rcases List.mem_cons.mp hp with rfl | hp2
    · simp only [findPointForIncome]
      rw [if_pos ⟨le_of_eq ht, by rw [← ht]; exact hab.le⟩, if_pos ht]
    · rcases List.mem_cons.mp hp2 with rfl | hp3
      · have h1 : a.grossIncome < t := by rw [← ht]; exact hab
        simp only [findPointForIncome]
        rw [if_pos ⟨h1.le, ht.symm.le⟩, if_neg h1.ne, if_pos ht]
      · cases hp3
  | cons c rest2 ih =>
    intro a b t hpw p hp ht
    have hab : a.grossIncome < b.grossIncome :=
      (List.pairwise_cons.mp hpw).1 b (by simp)
    have hpwt : List.Pairwise (fun p q => p.grossIncome < q.grossIncome)
        (b :: c :: rest2) := (List.pairwise_cons.mp hpw).2
    by_cases hguard : a.grossIncome ≤ t ∧ t ≤ b.grossIncome
    · simp only [findPointForIncome]
      rw [if_pos hguard]
      by_cases h1 : a.grossIncome = t
      · rw [if_pos h1]
        rcases List.mem_cons.mp hp with rfl | hp2
        · rfl
        · exfalso
          have hlt : a.grossIncome < p.grossIncome :=
            (List.pairwise_cons.mp hpw).1 p hp2
          rw [h1, ht] at hlt
          exact lt_irrefl t hlt
      · rw [if_neg h1]
        by_cases h2 : b.grossIncome = t
        · rw [if_pos h2]
          rcases List.mem_cons.mp hp with rfl | hp2
          · exact absurd ht h1
          · rcases List.mem_cons.mp hp2 with rfl | hp3
            · rfl
            · exfalso
              have hlt : b.grossIncome < p.grossIncome :=
                (List.pairwise_cons.mp hpwt).1 p hp3
              rw [h2, ht] at hlt
              exact lt_irrefl t hlt
        · exfalso
          rcases List.mem_cons.mp hp with rfl | hp2
          · exact h1 ht
          · rcases List.mem_cons.mp hp2 with rfl | hp3
            · exact h2 ht
            · have hlt : b.grossIncome < p.grossIncome :=
                (List.pairwise_cons.mp hpwt).1 p hp3
              rw [ht] at hlt
              exact absurd hguard.2 (not_le.mpr hlt)
    · simp only [findPointForIncome]
      rw [if_neg hguard]
      have hpa : p ≠ a := by
        rintro rfl
        exact hguard ⟨le_of_eq ht, by rw [← ht]; exact hab.le⟩
      have hp2 : p ∈ b :: c :: rest2 := by
        rcases List.mem_cons.mp hp with rfl | h
        · exact absurd rfl hpa
        · exact h
      exact ih b c t hpwt p hp2 ht

/-- On a strictly ascending sequence, a target strictly inside an
adjacent pair makes findPointForIncome return the point with every
dependent field linearly interpolated at the target. -/
theorem findPointForIncome_interp :
    ∀ (l1 : List GraphDataPoint) (c n : GraphDataPoint) (l2 : List GraphDataPoint) (t : ℚ),
      List.Pairwise (fun p q => p.grossIncome < q.grossIncome) (l1 ++ c :: n :: l2) →
      c.grossIncome < t → t < n.grossIncome →
      findPointForIncome (l1 ++ c :: n :: l2) t = some (interpPoint c n t) := by
  intro l1
  induction l1 with
  | nil =>
    intro c n l2 t hpw hc hn
    simp only [List.nil_append, findPointForIncome]
    rw [if_pos ⟨hc.le, hn.le⟩, if_neg (ne_of_lt hc), if_neg (ne_of_gt hn)]
  | cons a l1t ih =>
    intro c n l2 t hpw hc hn
    have hpw2 : List.Pairwise (fun p q => p.grossIncome < q.grossIncome)
        (a :: (l1t ++ c :: n :: l2)) := by
      rwa [List.cons_append] at hpw
    have hpwt : List.Pairwise (fun p q => p.grossIncome < q.grossIncome)
        (l1t ++ c :: n :: l2) := (List.pairwise_cons.mp hpw2).2
    cases l1t with
    | nil =>
      simp only [List.cons_append, List.nil_append, findPointForIncome]
      rw [if_neg (by push_neg; intro _; exact hc)]
      exact ih c n l2 t hpwt hc hn
    | cons b l1b =>
      have hpwt2 : List.Pairwise (fun p q => p.grossIncome < q.grossIncome)
          (b :: (l1b ++ c :: n :: l2)) := by
        rwa [List.cons_append] at hpwt
      have hbc : b.grossIncome < c.grossIncome :=
        (List.pairwise_cons.mp hpwt2).1 c (by simp)
      simp only [List.cons_append, findPointForIncome]
      rw [if_neg (by push_neg; intro _; linarith)]
      exact ih c n l2 t hpwt hc hn

/-- On a strictly ascending sequence of at least two samples,
findPointForIncome returns none exactly when the target lies strictly
outside the sampled range. -/
theorem findPointForIncome_none_iff :
    ∀ (rest : List GraphDataPoint) (a b : GraphDataPoint) (t : ℚ),
      List.Pairwise (fun p q => p.grossIncome < q.grossIncome) (a :: b :: rest) →
      (findPointForIncome (a :: b :: rest) t = none ↔
        t < a.grossIncome ∨
          ((b :: rest).getLast (List.cons_ne_nil b rest)).grossIncome < t) := by
  intro rest
  induction rest with
  | nil =>
    intro a b t hpw
    simp only [List.getLast_singleton]
    by_cases hguard : a.grossIncome ≤ t ∧ t ≤ b.grossIncome
    · simp only [findPointForIncome]
      rw [if_pos hguard]
      constructor
      · intro h
        exfalso
        split_ifs at h
      · rintro (h | h)
        · exact ((not_le.mpr h) hguard.1).elim
        · exact ((not_le.mpr h) hguard.2).elim
    · simp only [findPointForIncome]
      rw [if_neg hguard]
      constructor
      · intro _
        rcases not_and_or.mp hguard with h | h
        · exact Or.inl (not_le.mp h)
        · exact Or.inr (not_le.mp h)
      · intro _
        rfl
  | cons c rest2 ih =>
    intro a b t hpw
    have hab : a.grossIncome < b.grossIncome :=
      (List.pairwise_cons.mp hpw).1 b (by simp)
    have hpwt : List.Pairwise (fun p q => p.grossIncome < q.grossIncome)
        (b :: c :: rest2) := (List.pairwise_cons.mp hpw).2
    have hlast_eq : (b :: c :: rest2).getLast (List.cons_ne_nil b (c :: rest2)) =
        (c :: rest2).getLast (List.cons_ne_nil c rest2) :=
      List.getLast_cons (List.cons_ne_nil c rest2)
    have hblast : b.grossIncome ≤
        ((c :: rest2).getLast (List.cons_ne_nil c rest2)).grossIncome := by
      have hmem := List.getLast_mem (List.cons_ne_nil c rest2)
      exact le_of_lt ((List.pairwise_cons.mp hpwt).1 _ hmem)
    by_cases hguard : a.grossIncome ≤ t ∧ t ≤ b.grossIncome
    · simp only [findPointForIncome]
      rw [if_pos hguard]
      constructor
      · intro h
        exfalso
        split_ifs at h
      · rintro (h | h)
        · exact ((not_le.mpr h) hguard.1).elim
        · rw [hlast_eq] at h
          exact absurd hguard.2 (by linarith)
    · rw [findPointForIncome]
      rw [if_neg hguard, ih b c t hpwt, hlast_eq]
      constructor
      · rintro (h | h)
        · rcases not_and_or.mp hguard with h2 | h2
          · exact Or.inl (not_le.mp h2)
          · exact absurd h.le h2
        · exact Or.inr h
      · rintro (h | h)
        · exact Or.inl (by linarith)
        · exact Or.inr h

/-- C7 as amended: on every strictly ascending sequence of at least two
samples, findPointForIncome returns the exact sample on coincidence,
the fully interpolated point strictly inside a bracketing adjacent
pair, and none exactly when the target is outside the sampled range;
a one-sample sequence always yields none, even at its own x value. -/
theorem findPointForIncome_amended :
    ∀ (a b : GraphDataPoint) (rest : List GraphDataPoint) (t : ℚ),
      List.Pairwise (fun p q => p.grossIncome < q.grossIncome) (a :: b :: rest) →
      (∀ p ∈ a :: b :: rest, p.grossIncome = t →
          findPointForIncome (a :: b :: rest) t = some p) ∧
      (∀ (l1 : List GraphDataPoint) (c n : GraphDataPoint) (l2 : List GraphDataPoint),
          a :: b :: rest = l1 ++ c :: n :: l2 → c.grossIncome < t → t < n.grossIncome →
          findPointForIncome (a :: b :: rest) t = some (interpPoint c n t)) ∧
      (findPointForIncome (a :: b :: rest) t = none ↔
          t < a.grossIncome ∨
            ((b :: rest).getLast (List.cons_ne_nil b rest)).grossIncome < t) ∧
      findPointForIncome [a] t = none := by
  intro a b rest t hpw
  refine ⟨fun p hp ht => findPointForIncome_exact rest a b t hpw p hp ht,
    fun l1 c n l2 heq hc hn => ?_,
    findPointForIncome_none_iff rest a b t hpw,
    rfl⟩
  rw [heq]
  exact findPointForIncome_interp l1 c n l2 t (heq ▸ hpw) hc hn

/-- C7 counterexample: a one-sample sequence is non-empty and the
target 5 coincides with its only sample's grossIncome and lies inside
the (degenerate) sampled range, yet findPointForIncome returns none,
not that exact sample. -/
theorem findPointForIncome_counterexample :
    findPointForIncome [⟨5, 1, 2, 3⟩] 5 = none ∧
    (⟨5, 1, 2, 3⟩ : GraphDataPoint) ∈ ([⟨5, 1, 2, 3⟩] : List GraphDataPoint) ∧
    (⟨5, 1, 2, 3⟩ : GraphDataPoint).grossIncome = 5 :=
  ⟨rfl, by simp, rfl⟩

/-- Witness for findPointForIncome_amended: the interpolation clause on
a concrete two-sample ascending sequence at target 5. -/
theorem findPointForIncome_amended_witness :
    findPointForIncome [⟨0, 0, 0, 0⟩, ⟨10, 20, 30, 40⟩] 5 =
      some (interpPoint ⟨0, 0, 0, 0⟩ ⟨10, 20, 30, 40⟩ 5) := by
  have h := findPointForIncome_amended ⟨0, 0, 0, 0⟩ ⟨10, 20, 30, 40⟩ [] 5 (by
    norm_num [List.pairwise_cons])
  exact h.2.1 [] ⟨0, 0, 0, 0⟩ ⟨10, 20, 30, 40⟩ [] rfl (by norm_num) (by norm_num)
